import Mathlib

/-!
Verification of the Hey Macro daily-log synchronization engine.

This file gives a shallow embedding of the core of the Hey Macro app
(React Native / TypeScript) and proves properties of it:

* the SQLite storage layer (`src/unnamed/part_012`, the storage service the
  application modules import: it is the variant exporting `getEarliestLogDate`
  and the per-day target columns used by `CalendarDropdown.tsx` and
  `useAppData.ts`): `replaceDailyFoodEntries`, `getOrCreateDailyLog`;
* the Gemini extraction client retry loop (`src/services/gemini.ts`,
  first document: the variant with `MAX_RETRIES`);
* response validation (`src/services/llm.ts`: `validateFoodItem`,
  `validateAndNormalizeLLMResponse`, `parseFoodInput`);
* the voice food logger cancellation logic (`src/hooks/useVoiceFoodLogger.ts`);
* the macro-target calculator (`useMacroCalculator`, third document of
  `src/hooks/useVoiceInput.ts`);
* the local-date helpers (`getLocalDateString` of `src/hooks/useAppData.ts`,
  `formatLocalDate` / `getTodayDate` / `getMonthCalorieData` date range of
  `src/unnamed/part_012`).

Database rows are modelled as Lean structures, the SQLite tables as lists of
rows, and `uuidv4` as a deterministic fresh-id supply.  Statement execution
with failure injection models `runAsync` calls that may throw, and
`withTransactionAsync` is modelled with SQLite rollback-on-error semantics.
-/

namespace HeyMacroApp

/-- A food item as stored and as returned by the extraction service
(`FoodItem` in `src/types`): macro fields are integers after normalization. -/
structure FoodItem where
  name : String
  quantity : String
  calories : Int
  protein : Int
  carbs : Int
  fat : Int
deriving DecidableEq, Repr

/-- The complete-day extraction result (`LLMResponse` in `src/types`):
four meal arrays of food items. -/
structure LLMResponse where
  breakfast : List FoodItem
  lunch : List FoodItem
  dinner : List FoodItem
  snacks : List FoodItem
deriving DecidableEq, Repr

/-- `[...foodData.breakfast, ...foodData.lunch, ...foodData.dinner,
...foodData.snacks]` as built inside `replaceDailyFoodEntries`. -/
def LLMResponse.allItems (r : LLMResponse) : List FoodItem :=
  r.breakfast ++ r.lunch ++ r.dinner ++ r.snacks

/-- The all-empty extraction result (schema-valid, four empty arrays). -/
def LLMResponse.empty : LLMResponse := ⟨[], [], [], []⟩

/-- `allItems.reduce((sum, item) => sum + item.calories, 0)` etc., abstracted
over the projected macro field. -/
def itemsSum (l : List FoodItem) (f : FoodItem → Int) : Int :=
  l.foldl (fun s i => s + f i) 0

/-- A row of the `food_entries` table.  `foodEntryID` models the `uuidv4`
value by a natural number drawn from a fresh-id supply. -/
structure EntryRow where
  foodEntryID : Nat
  userID : String
  dailyLogID : String
  mealType : String
  name : String
  quantity : String
  calories : Int
  protein : Int
  carbs : Int
  fat : Int
  createdAt : String
  updatedAt : String
deriving DecidableEq, Repr

/-- A row of the `daily_logs` table, including the per-day target columns
added by `runMigrations` in `src/unnamed/part_012`. -/
structure LogRow where
  dailyLogID : String
  userID : String
  date : String
  totalCalories : Int
  totalProtein : Int
  totalCarbs : Int
  totalFat : Int
  targetCalories : Int
  targetProtein : Int
  targetCarbs : Int
  targetFat : Int
  createdAt : String
  updatedAt : String
deriving DecidableEq, Repr

/-- A row of the `macro_targets` table. -/
structure TargetsRow where
  userID : String
  calories : Int
  protein : Int
  carbs : Int
  fat : Int
  createdAt : String
  updatedAt : String
deriving DecidableEq, Repr

/-- The SQLite database state: the three tables used by the daily-log engine,
plus a counter supplying fresh ids (standing in for `uuidv4`). -/
structure DB where
  logs : List LogRow
  entries : List EntryRow
  targets : List TargetsRow
  nextID : Nat
deriving DecidableEq, Repr

/-- Build the `food_entries` row inserted for one food item
(the INSERT statement of `replaceDailyFoodEntries` / `addFoodEntry`). -/
def FoodItem.toRow (f : FoodItem) (id : Nat)
    (userID dailyLogID mealType now : String) : EntryRow :=
  ⟨id, userID, dailyLogID, mealType, f.name, f.quantity,
    f.calories, f.protein, f.carbs, f.fat, now, now⟩

/-- One SQL statement issued by `replaceDailyFoodEntries` via `runAsync`. -/
inductive SqlOp where
  | deleteEntries (dailyLogID : String)
  | insertEntry (userID dailyLogID mealType : String) (food : FoodItem) (now : String)
  | updateLogTotals (dailyLogID : String) (tc tp tcb tf : Int) (now : String)
deriving DecidableEq, Repr

/-- Effect of one SQL statement on the database state. -/
def applyOp (d : DB) : SqlOp → DB
  | .deleteEntries ld =>
      { d with entries := d.entries.filter (fun e => e.dailyLogID != ld) }
  | .insertEntry u ld m food now =>
      { d with entries := d.entries ++ [food.toRow d.nextID u ld m now],
               nextID := d.nextID + 1 }
  | .updateLogTotals ld tc tp tcb tf now =>
      { d with logs := d.logs.map (fun l =>
          if l.dailyLogID == ld then
            { l with totalCalories := tc, totalProtein := tp,
                     totalCarbs := tcb, totalFat := tf, updatedAt := now }
          else l) }

/-- The statement sequence executed by `replaceDailyFoodEntries`
(`src/unnamed/part_012`, lines 496-541): delete all entries of the daily log,
then insert every item of every meal (iterating `mealTypes` in the fixed order
breakfast, lunch, dinner, snacks), then update the stored totals, which were
computed upfront from `allItems`. -/
def replaceOps (userID dailyLogID : String) (foodData : LLMResponse)
    (now : String) : List SqlOp :=
  let allItems := foodData.allItems
  let ins := fun (m : String) (items : List FoodItem) =>
    items.map (fun food => SqlOp.insertEntry userID dailyLogID m food now)
  SqlOp.deleteEntries dailyLogID
    :: (ins "breakfast" foodData.breakfast ++ ins "lunch" foodData.lunch
        ++ ins "dinner" foodData.dinner ++ ins "snacks" foodData.snacks
        ++ [SqlOp.updateLogTotals dailyLogID
              (itemsSum allItems (·.calories)) (itemsSum allItems (·.protein))
              (itemsSum allItems (·.carbs)) (itemsSum allItems (·.fat)) now])

/-- `replaceDailyFoodEntries` on the success path: every statement of the
transaction applied in order. -/
def replaceDailyFoodEntries (d : DB) (userID dailyLogID : String)
    (foodData : LLMResponse) (now : String) : DB :=
  (replaceOps userID dailyLogID foodData now).foldl applyOp d

/-- Execute a statement list where each `runAsync` may fail: `faults` gives,
per statement, whether it succeeds (`true`) or throws (default: success). -/
def execOps : List SqlOp → List Bool → DB → Except Unit DB
  | [], _, d => .ok d
  | op :: ops, faults, d =>
      if faults.headD true then execOps ops faults.tail (applyOp d op)
      else .error ()

/-- `withTransactionAsync` semantics: run the statements; if any throws, the
transaction is rolled back, so the observable state is the pre-transaction
state and the error propagates. -/
def runTransaction (d : DB) (ops : List SqlOp) (faults : List Bool) :
    DB × Except Unit Unit :=
  match execOps ops faults d with
  | .ok d2 => (d2, .ok ())
  | .error _ => (d, .error ())

/-- `replaceDailyFoodEntries` under failure injection: the whole statement
sequence runs inside `withTransactionAsync`. -/
def replaceDailyFoodEntriesExec (d : DB) (userID dailyLogID : String)
    (foodData : LLMResponse) (now : String) (faults : List Bool) :
    DB × Except Unit Unit :=
  runTransaction d (replaceOps userID dailyLogID foodData now) faults

/-- The entries currently stored for a daily log
(`SELECT * FROM food_entries WHERE dailyLogID = ?`). -/
def entriesFor (d : DB) (dailyLogID : String) : List EntryRow :=
  d.entries.filter (fun e => e.dailyLogID == dailyLogID)

/-- The totals stored on the `daily_logs` row of a daily log. -/
def storedTotals (d : DB) (dailyLogID : String) :
    Option (Int × Int × Int × Int) :=
  (d.logs.find? (fun l => l.dailyLogID == dailyLogID)).map
    (fun l => (l.totalCalories, l.totalProtein, l.totalCarbs, l.totalFat))

/-- The rows inserted for a list of items of one meal, with ids drawn
sequentially from the fresh-id supply. -/
def rowsFrom (items : List FoodItem) (id0 : Nat)
    (userID dailyLogID mealType now : String) : List EntryRow :=
  match items with
  | [] => []
  | f :: fs =>
      f.toRow id0 userID dailyLogID mealType now
        :: rowsFrom fs (id0 + 1) userID dailyLogID mealType now

/-- All rows inserted by one `replaceDailyFoodEntries` call, meal by meal in
source order, ids drawn sequentially starting at `id0`. -/
def insertedRows (r : LLMResponse) (id0 : Nat) (userID dailyLogID now : String) :
    List EntryRow :=
  rowsFrom r.breakfast id0 userID dailyLogID "breakfast" now
    ++ rowsFrom r.lunch (id0 + r.breakfast.length) userID dailyLogID "lunch" now
    ++ rowsFrom r.dinner (id0 + r.breakfast.length + r.lunch.length)
        userID dailyLogID "dinner" now
    ++ rowsFrom r.snacks
        (id0 + r.breakfast.length + r.lunch.length + r.dinner.length)
        userID dailyLogID "snacks" now

/-- A `FoodEntry` as returned to the app: an entry row with the `mealType`
column destructured away (`const { mealType, ...foodEntry } = entry`). -/
structure FoodEntry where
  foodEntryID : Nat
  userID : String
  dailyLogID : String
  name : String
  quantity : String
  calories : Int
  protein : Int
  carbs : Int
  fat : Int
  createdAt : String
  updatedAt : String
deriving DecidableEq, Repr

/-- Drop the `mealType` column of an entry row. -/
def EntryRow.toFoodEntry (e : EntryRow) : FoodEntry :=
  ⟨e.foodEntryID, e.userID, e.dailyLogID, e.name, e.quantity,
    e.calories, e.protein, e.carbs, e.fat, e.createdAt, e.updatedAt⟩

/-- The `DailyLog` value returned by `getOrCreateDailyLog`
(`src/unnamed/part_012`): totals, per-day target snapshot and the four
meal-grouped entry lists. -/
structure DailyLog where
  dailyLogID : String
  userID : String
  date : String
  totalCalories : Int
  totalProtein : Int
  totalCarbs : Int
  totalFat : Int
  targetCalories : Int
  targetProtein : Int
  targetCarbs : Int
  targetFat : Int
  breakfast : List FoodEntry
  lunch : List FoodEntry
  dinner : List FoodEntry
  snacks : List FoodEntry
  createdAt : String
  updatedAt : String
deriving DecidableEq, Repr

/-- `entries.reduce((sum, e) => sum + e.calories, 0)` over fetched rows. -/
def rowsSum (l : List EntryRow) (f : EntryRow → Int) : Int :=
  l.foldl (fun s e => s + f e) 0

/-- Grouping of fetched entries by meal type: the `switch (mealType)` loop
pushes each row, in fetch order, onto the list of its meal; rows with an
unknown meal type are dropped. -/
def groupMeal (entries : List EntryRow) (m : String) : List FoodEntry :=
  (entries.filter (fun e => e.mealType == m)).map EntryRow.toFoodEntry

/-- `getOrCreateMacroTargets` (`src/unnamed/part_012`): return the stored
targets row for the user, or insert and return the defaults
(2690 kcal, 170 g protein, 300 g carbs, 90 g fat). -/
def getOrCreateMacroTargets (d : DB) (userID now : String) : DB × TargetsRow :=
  match d.targets.find? (fun t => t.userID == userID) with
  | some t => (d, t)
  | none =>
      let t : TargetsRow := ⟨userID, 2690, 170, 300, 90, now, now⟩
      ({ d with targets := d.targets ++ [t] }, t)

/-- Branch of `getOrCreateDailyLog` where the `daily_logs` row exists:
fetch the entries of the log, group by meal, recompute totals as the sum
over the fetched rows, write the totals back if they changed, and return the
`DailyLog` built from the recomputed totals. -/
def getOrCreateDailyLogFound (d : DB) (log : LogRow) (userID date now : String) :
    DB × DailyLog :=
  let entries := entriesFor d log.dailyLogID
  let totalCalories := rowsSum entries (·.calories)
  let totalProtein := rowsSum entries (·.protein)
  let totalCarbs := rowsSum entries (·.carbs)
  let totalFat := rowsSum entries (·.fat)
  let changed := log.totalCalories != totalCalories
    || log.totalProtein != totalProtein
    || log.totalCarbs != totalCarbs
    || log.totalFat != totalFat
  let d2 := if changed then
      { d with logs := d.logs.map (fun l =>
          if l.dailyLogID == log.dailyLogID then
            { l with totalCalories := totalCalories, totalProtein := totalProtein,
                     totalCarbs := totalCarbs, totalFat := totalFat,
                     updatedAt := now }
          else l) }
    else d
  (d2,
    ⟨log.dailyLogID, userID, date,
      totalCalories, totalProtein, totalCarbs, totalFat,
      log.targetCalories, log.targetProtein, log.targetCarbs, log.targetFat,
      groupMeal entries "breakfast", groupMeal entries "lunch",
      groupMeal entries "dinner", groupMeal entries "snacks",
      log.createdAt, now⟩)

/-- Branch of `getOrCreateDailyLog` where no row exists for the user and
date: create the row with zero totals and a snapshot of the current macro
targets, then proceed as in the found branch (there is no totals update
statement because the fetched `log` was null). -/
def getOrCreateDailyLogNew (d : DB) (userID date now : String) : DB × DailyLog :=
  let dailyLogID := "log-" ++ toString d.nextID
  let d1 : DB := { d with nextID := d.nextID + 1 }
  let p := getOrCreateMacroTargets d1 userID now
  let row : LogRow := ⟨dailyLogID, userID, date, 0, 0, 0, 0,
    p.2.calories, p.2.protein, p.2.carbs, p.2.fat, now, now⟩
  let d2 : DB := { p.1 with logs := p.1.logs ++ [row] }
  let entries := entriesFor d2 dailyLogID
  (d2,
    ⟨dailyLogID, userID, date,
      rowsSum entries (·.calories), rowsSum entries (·.protein),
      rowsSum entries (·.carbs), rowsSum entries (·.fat),
      p.2.calories, p.2.protein, p.2.carbs, p.2.fat,
      groupMeal entries "breakfast", groupMeal entries "lunch",
      groupMeal entries "dinner", groupMeal entries "snacks",
      now, now⟩)

/-- `getOrCreateDailyLog` (`src/unnamed/part_012`, lines 295-405): look up the
daily log by user and date (first match), create it with a target snapshot if
missing, fetch and group its entries, and return totals recomputed as the sum
of the fetched entries.  Fetched rows are kept in table (insertion) order,
which realizes `ORDER BY createdAt ASC` since `createdAt` is assigned at
insertion time. -/
def getOrCreateDailyLog (d : DB) (userID date now : String) : DB × DailyLog :=
  match d.logs.find? (fun l => l.userID == userID && l.date == date) with
  | some log => getOrCreateDailyLogFound d log userID date now
  | none => getOrCreateDailyLogNew d userID date now

/-! The Gemini extraction client retry loop (`src/services/gemini.ts`,
first document, lines 11-13, 91-101 and 136-244). -/

/-- `const MAX_RETRIES = 3` -/
def MAX_RETRIES : Nat := 3

/-- `const INITIAL_RETRY_DELAY_MS = 2000` -/
def INITIAL_RETRY_DELAY_MS : Nat := 2000

/-- Whether a character list starts with a pattern. -/
def listStartsWith : List Char → List Char → Bool
  | _, [] => true
  | [], _ :: _ => false
  | c :: cs, p :: ps => c == p && listStartsWith cs ps

/-- Whether a pattern occurs somewhere in a character list. -/
def occursInChars : List Char → List Char → Bool
  | [], pat => pat.isEmpty
  | c :: cs, pat => listStartsWith (c :: cs) pat || occursInChars cs pat

/-- `s.includes(pat)`. -/
def occursIn (s pat : String) : Bool := occursInChars s.data pat.data

/-- `s.toLowerCase()` (the markers compared against are ASCII). -/
def toLowerString (s : String) : String := ⟨s.data.map Char.toLower⟩

/-- `isRetryableError` (`src/services/gemini.ts`, lines 91-101): the message,
lowercased, contains one of the transient-network markers. -/
def isRetryableError (msg : String) : Bool :=
  let errorMsg := toLowerString msg
  occursIn errorMsg "timeout"
    || occursIn errorMsg "timed out"
    || occursIn errorMsg "network request failed"
    || occursIn errorMsg "econnreset"
    || occursIn errorMsg "enotfound"
    || occursIn errorMsg "econnrefused"

/-- The error translation after the loop exits with `lastError` set
(`src/services/gemini.ts`, lines 232-240). -/
def mapFinalError (msg : String) : String :=
  if occursIn msg "api key" || occursIn (toLowerString msg) "unauthorized"
      || occursIn msg "403" then
    "Invalid API key: Please verify your GEMINI_API_KEY is valid."
  else "Gemini API error: " ++ msg

/-- The observable behaviour of one `generate` call: how many attempts of the
external call were made, the sleeps performed between attempts (in ms), and
the final outcome (success, or the thrown error message). -/
structure GenOutcome where
  attempts : Nat
  delays : List Nat
  result : Except String Unit
deriving Repr

/-- The body of `for (attempt = 0; attempt <= MAX_RETRIES; attempt++)`
(`src/services/gemini.ts`, lines 146-230).  `outcomes k` is the result of the
k-th attempt of the external call (including response-shape checking, JSON
parsing and schema validation, all of which throw inside the same `try`).
On failure the loop retries, after an exponential sleep, only while
`attempt < MAX_RETRIES` and the error is classified retryable; otherwise it
breaks and throws the translated error. -/
def genLoop (outcomes : Nat → Except String Unit) :
    Nat → Nat → List Nat → GenOutcome
  | 0, attempt, delays =>
      ⟨attempt, delays, .error "Gemini API error: Unknown error"⟩
  | fuel + 1, attempt, delays =>
      match outcomes attempt with
      | .ok _ => ⟨attempt + 1, delays, .ok ()⟩
      | .error msg =>
          if attempt < MAX_RETRIES && isRetryableError msg then
            genLoop outcomes fuel (attempt + 1)
              (delays ++ [INITIAL_RETRY_DELAY_MS * 2 ^ attempt])
          else ⟨attempt + 1, delays, .error (mapFinalError msg)⟩

/-- `geminiProvider.generate`: the API-key guard followed by the retry loop.
`configured` is whether `GEMINI_API_KEY` is set and non-empty.  The loop
runs with `MAX_RETRIES + 1` remaining iterations (`attempt` ranging over
`0..MAX_RETRIES` inclusive); the fuel-exhausted arm is the unreachable
post-loop `throw` of the source. -/
def geminiGenerate (configured : Bool) (outcomes : Nat → Except String Unit) :
    GenOutcome :=
  if !configured then
    ⟨0, [],
      .error "GEMINI_API_KEY is not configured. Please check your .env file and restart Expo."⟩
  else genLoop outcomes (MAX_RETRIES + 1) 0 []

/-- Whether attempt `k` is the one on which the loop stops: success, or a
failure that is not retried (written from the amended retry policy, for
comparison with `genLoop`). -/
def stopsAt (outcomes : Nat → Except String Unit) (k : Nat) : Bool :=
  match outcomes k with
  | .ok _ => true
  | .error msg => !(decide (k < MAX_RETRIES) && isRetryableError msg)

/-- The index of the attempt on which the loop stops. -/
def stopIndex (outcomes : Nat → Except String Unit) : Nat :=
  if stopsAt outcomes 0 then 0
  else if stopsAt outcomes 1 then 1
  else if stopsAt outcomes 2 then 2
  else 3

/-- The final result produced from the outcome of the stopping attempt. -/
def finalOf : Except String Unit → Except String Unit
  | .ok _ => .ok ()
  | .error msg => .error (mapFinalError msg)

/-! Response validation (`src/services/llm.ts`, lines 354-387 of the second
document, identical to lines 152-186 of the first). -/

/-- `Math.round`: round to nearest, ties toward positive infinity. -/
def jsRound (q : ℚ) : Int := ⌊q + 1 / 2⌋

/-- A dynamic value, for the one field whose type the validator checks at
runtime (`typeof item.name !== 'string'`). -/
inductive JVal where
  | undef
  | null
  | str (s : String)
  | num (q : ℚ)
  | boolean (b : Bool)
deriving DecidableEq, Repr

/-- JavaScript falsiness of a dynamic value (`!item.name`). -/
def JVal.jsFalsy : JVal → Bool
  | .undef => true
  | .null => true
  | .str s => s == ""
  | .num q => q == 0
  | .boolean b => !b

/-- `typeof v === 'string'` -/
def JVal.isString : JVal → Bool
  | .str _ => true
  | _ => false

/-- The underlying string of a dynamic value known to be a string. -/
def JVal.asString : JVal → String
  | .str s => s
  | _ => ""

/-- One item of the parsed extraction response before validation.  The
`name` field is kept dynamic because `validateFoodItem` checks its presence
and type at runtime; the remaining fields carry the types the response
schema guarantees (strings and numbers). -/
structure FoodItemParsed where
  name : JVal
  quantity : String
  calories : ℚ
  protein : ℚ
  carbs : ℚ
  fat : ℚ
deriving DecidableEq, Repr

/-- The parsed extraction response before validation: four meal arrays. -/
structure LLMResponseParsed where
  breakfast : List FoodItemParsed
  lunch : List FoodItemParsed
  dinner : List FoodItemParsed
  snacks : List FoodItemParsed
deriving DecidableEq, Repr

/-- `validateFoodItem` (`src/services/llm.ts`, lines 374-387): throw when the
name is falsy or not a string; otherwise normalize — default the quantity to
`"1 serving"` when falsy, and round every macro field to the nearest integer
(`Math.round(Number(x) || 0)`; on a schema-validated number the `Number` and
`|| 0` coercions are the identity). -/
def validateFoodItem (item : FoodItemParsed) : Except String FoodItem :=
  if item.name.jsFalsy || !item.name.isString then
    .error "Food item must have a name"
  else
    .ok ⟨item.name.asString,
      if item.quantity == "" then "1 serving" else item.quantity,
      jsRound item.calories, jsRound item.protein,
      jsRound item.carbs, jsRound item.fat⟩

/-- `response[mealType].map(item => validateFoodItem(item))` inside the
enclosing try: the first thrown error aborts the whole map. -/
def validateItems : List FoodItemParsed → Except String (List FoodItem)
  | [] => .ok []
  | item :: rest =>
      match validateFoodItem item with
      | .error e => .error e
      | .ok v =>
          match validateItems rest with
          | .error e => .error e
          | .ok vs => .ok (v :: vs)

/-- `validateAndNormalizeLLMResponse` (`src/services/llm.ts`, lines 354-371):
validate every item of every meal array, iterating the meals in the fixed
order breakfast, lunch, dinner, snacks; the first thrown error aborts the
whole normalization. -/
def validateAndNormalizeLLMResponse (response : LLMResponseParsed) :
    Except String LLMResponse :=
  match validateItems response.breakfast with
  | .error e => .error e
  | .ok breakfast =>
      match validateItems response.lunch with
      | .error e => .error e
      | .ok lunch =>
          match validateItems response.dinner with
          | .error e => .error e
          | .ok dinner =>
              match validateItems response.snacks with
              | .error e => .error e
              | .ok snacks => .ok ⟨breakfast, lunch, dinner, snacks⟩

/-- `parseFoodInput` (`src/services/llm.ts`, second document): `generated` is
the outcome of the provider call; a successful provider result is passed to
`validateAndNormalizeLLMResponse`, and any thrown error is re-wrapped (with a
dedicated message for the `TIMEOUT_ERROR` marker). -/
def parseFoodInput (generated : Except String LLMResponseParsed) :
    Except String LLMResponse :=
  match generated with
  | .error e =>
      .error (if e == "TIMEOUT_ERROR" then
          "Request took too long to process. Try breaking up your description into smaller parts and logging them separately."
        else "Failed to parse food input: " ++ e)
  | .ok r =>
      match validateAndNormalizeLLMResponse r with
      | .ok v => .ok v
      | .error e => .error ("Failed to parse food input: " ++ e)

/-! The voice food logger (`src/hooks/useVoiceFoodLogger.ts`): the pieces of
hook state touched by processing, resolution and cancellation. -/

/-- The hook state: `isProcessing`, `parsedFood`, `llmError` (the `useState`
cells) and `cancelledRef.current`. -/
structure LoggerState where
  isProcessing : Bool
  parsedFood : Option LLMResponse
  llmError : Option String
  cancelled : Bool
deriving DecidableEq, Repr

/-- The rewritten message used when the app was backgrounded while
processing. -/
def backgroundedErrorMessage : String :=
  "Request failed because app was backgrounded. Keep the app open while processing."

/-- `stopRecordingAndParse` entering the parsing phase (lines 67-69):
`cancelledRef.current = false; setIsProcessing(true); setLlmError(null)`. -/
def startProcessing (s : LoggerState) : LoggerState :=
  { s with cancelled := false, isProcessing := true, llmError := none }

/-- `cancelProcessing` (lines 121-126): set the cancellation flag, stop the
processing indicator, clear the error and drop any parsed result. -/
def cancelProcessing (s : LoggerState) : LoggerState :=
  { s with cancelled := true, isProcessing := false,
           llmError := none, parsedFood := none }

/-- Resolution of `parseFoodInput` with a result (lines 78-81 and the
`finally` block): both the result store and the processing-indicator reset
are guarded by `!cancelledRef.current`. -/
def resolveSuccess (r : LLMResponse) (s : LoggerState) : LoggerState :=
  if s.cancelled then s
  else { s with parsedFood := some r, isProcessing := false }

/-- Resolution of `parseFoodInput` with a thrown error (lines 82-97): the
error store (rewritten if the app was backgrounded meanwhile) and the
processing-indicator reset are guarded by `!cancelledRef.current`. -/
def resolveFailure (msg : String) (wasBackgrounded : Bool) (s : LoggerState) :
    LoggerState :=
  if s.cancelled then s
  else { s with
    llmError := some (if wasBackgrounded then backgroundedErrorMessage else msg),
    isProcessing := false }

/-- `saveParsedFood` (lines 102-108): a no-op when there is no parsed food,
otherwise the atomic replace. -/
def saveParsedFood (s : LoggerState) (d : DB) (dailyLogID userID now : String) :
    DB :=
  match s.parsedFood with
  | none => d
  | some r => replaceDailyFoodEntries d userID dailyLogID r now

/-! The macro-target calculator (`useMacroCalculator`, third document of
`src/hooks/useVoiceInput.ts`, lines 284-579 of the concatenated file). -/

def PROTEIN_CALS_PER_GRAM : ℚ := 4

def CARBS_CALS_PER_GRAM : ℚ := 4

def FAT_CALS_PER_GRAM : ℚ := 9

/-- The four editable fields of the calculator. -/
inductive MacroField where
  | calories
  | protein
  | carbs
  | fat
deriving DecidableEq, Repr

/-- The four text-input values. -/
structure MacroValues where
  calories : String
  protein : String
  carbs : String
  fat : String
deriving DecidableEq, Repr

/-- Split a character list on a separator. -/
def splitOnSep (sep : Char) : List Char → List (List Char)
  | [] => [[]]
  | c :: rest =>
      let r := splitOnSep sep rest
      if c == sep then [] :: r
      else
        match r with
        | [] => [[c]]
        | h :: t => (c :: h) :: t

/-- A non-empty all-digit character list as a natural number. -/
def digitsToNat? (l : List Char) : Option Nat :=
  if l.isEmpty then none
  else if l.all Char.isDigit then
    some (l.foldl (fun a c => a * 10 + (c.toNat - 48)) 0)
  else none

/-- Parse a non-negative decimal numeral. -/
def parseDecimal (s : String) : Option ℚ :=
  match splitOnSep '.' s.data with
  | [i] => (digitsToNat? i).map (fun n => (n : ℚ))
  | [i, fpart] =>
      match digitsToNat? i, digitsToNat? fpart with
      | some n, some fr => some ((n : ℚ) + (fr : ℚ) / (10 : ℚ) ^ fpart.length)
      | _, _ => none
  | _ => none

/-- `parseValue` (lines 319-323): the empty string and unparsable input give
null.  `parseFloat` is modelled on plain (optionally signed) decimal
numerals, which is what the numeric inputs of the calculator produce. -/
def parseValue (value : String) : Option ℚ :=
  if value == "" then none
  else
    match value.data with
    | '-' :: rest => (parseDecimal ⟨rest⟩).map (fun q => -q)
    | _ => parseDecimal value

/-- `countSetFields` (lines 325-332): the number of non-empty fields. -/
def countSetFields (values : MacroValues) : Nat :=
  (if values.calories != "" then 1 else 0)
    + (if values.protein != "" then 1 else 0)
    + (if values.carbs != "" then 1 else 0)
    + (if values.fat != "" then 1 else 0)

/-- `getMissingField` (lines 334-340): the first empty field, in the fixed
order calories, protein, carbs, fat. -/
def getMissingField (values : MacroValues) : Option MacroField :=
  if values.calories == "" then some .calories
  else if values.protein == "" then some .protein
  else if values.carbs == "" then some .carbs
  else if values.fat == "" then some .fat
  else none

/-- Write one field of the calculator values. -/
def setFieldValue (values : MacroValues) : MacroField → String → MacroValues
  | .calories, v => { values with calories := v }
  | .protein, v => { values with protein := v }
  | .carbs, v => { values with carbs := v }
  | .fat, v => { values with fat := v }

/-- `calculateMissingField` (lines 357-421): when exactly 3 of the 4 fields
are set, fill the missing one from the energy identities and round it to the
nearest integer; otherwise leave the values unchanged with no derived field.
The non-null assertions `x!` of the source evaluate a null operand as 0 in
arithmetic, modelled by `Option.getD 0`. -/
def calculateMissingField (newValues : MacroValues) :
    MacroValues × Option MacroField :=
  let setCount := countSetFields newValues
  if setCount != 3 then (newValues, none)
  else
    match getMissingField newValues with
    | none => (newValues, none)
    | some missing =>
        let calories := parseValue newValues.calories
        let protein := parseValue newValues.protein
        let carbs := parseValue newValues.carbs
        let fat := parseValue newValues.fat
        let v := fun (o : Option ℚ) => o.getD 0
        let calculatedValue : ℚ :=
          match missing with
          | .calories =>
              v protein * PROTEIN_CALS_PER_GRAM
                + v carbs * CARBS_CALS_PER_GRAM + v fat * FAT_CALS_PER_GRAM
          | .protein =>
              (v calories - v carbs * CARBS_CALS_PER_GRAM
                - v fat * FAT_CALS_PER_GRAM) / PROTEIN_CALS_PER_GRAM
          | .carbs =>
              (v calories - v protein * PROTEIN_CALS_PER_GRAM
                - v fat * FAT_CALS_PER_GRAM) / CARBS_CALS_PER_GRAM
          | .fat =>
              (v calories - v protein * PROTEIN_CALS_PER_GRAM
                - v carbs * CARBS_CALS_PER_GRAM) / FAT_CALS_PER_GRAM
        (setFieldValue newValues missing (toString (jsRound calculatedValue)),
          some missing)

/-- The calculator state: the four values and the derived-field tag. -/
structure CalcState where
  values : MacroValues
  calculatedField : Option MacroField
deriving DecidableEq, Repr

/-- `setCalories` (lines 423-436): when calories changes, clear the other
fields and the derived-field tag. -/
def setCalories (_s : CalcState) (value : String) : CalcState :=
  ⟨⟨value, "", "", ""⟩, none⟩

/-- `setProtein` (lines 438-460): if protein was the derived field, just
clear the tag; otherwise try to fill a missing field. -/
def setProtein (s : CalcState) (value : String) : CalcState :=
  let newValues := { s.values with protein := value }
  if s.calculatedField == some .protein then ⟨newValues, none⟩
  else
    let result := calculateMissingField newValues
    ⟨result.1, result.2⟩

/-- `setCarbs` (lines 462-481). -/
def setCarbs (s : CalcState) (value : String) : CalcState :=
  let newValues := { s.values with carbs := value }
  if s.calculatedField == some .carbs then ⟨newValues, none⟩
  else
    let result := calculateMissingField newValues
    ⟨result.1, result.2⟩

/-- `setFat` (lines 483-502). -/
def setFat (s : CalcState) (value : String) : CalcState :=
  let newValues := { s.values with fat := value }
  if s.calculatedField == some .fat then ⟨newValues, none⟩
  else
    let result := calculateMissingField newValues
    ⟨result.1, result.2⟩

/-! Local-date helpers.  An instant is modelled as minutes since the Unix
epoch (UTC); `tzOffsetMin` is the device timezone offset in minutes east of
UTC (the negation of `Date.prototype.getTimezoneOffset`), so UTC-8 is
`-480`.  `Date` component getters (`getFullYear`, `getMonth`, `getDate`)
read the civil date of the offset-shifted instant; `toISOString` reads the
civil date of the unshifted instant. -/

/-- Day number (days since 1970-01-01) to civil date `(year, month, day)`,
month 1-12 (the standard civil-from-days algorithm). -/
def civilFromDays (z0 : Int) : Int × Int × Int :=
  let z := z0 + 719468
  let era := z.fdiv 146097
  let doe := z - era * 146097
  let yoe := (doe - doe.fdiv 1460 + doe.fdiv 36524 - doe.fdiv 146096).fdiv 365
  let y := yoe + era * 400
  let doy := doe - (365 * yoe + yoe.fdiv 4 - yoe.fdiv 100)
  let mp := (5 * doy + 2).fdiv 153
  let dday := doy - (153 * mp + 2).fdiv 5 + 1
  let m := mp + (if mp < 10 then 3 else -9)
  (y + (if m ≤ 2 then 1 else 0), m, dday)

/-- Civil date to day number (inverse direction; handles out-of-range day
values by linear continuation, which is how the `Date` constructor
normalizes a day argument of 0). -/
def daysFromCivil (y0 m dday : Int) : Int :=
  let y := y0 - (if m ≤ 2 then 1 else 0)
  let era := y.fdiv 400
  let yoe := y - era * 400
  let doy := (153 * (m + (if m > 2 then -3 else 9)) + 2).fdiv 5 + dday - 1
  let doe := yoe * 365 + yoe.fdiv 4 - yoe.fdiv 100 + doy
  era * 146097 + doe - 719468

/-- The day number of the local calendar day containing an instant. -/
def localDayNumber (epochMin tzOffsetMin : Int) : Int :=
  (epochMin + tzOffsetMin).fdiv 1440

/-- The day number of the UTC calendar day containing an instant. -/
def utcDayNumber (epochMin : Int) : Int := epochMin.fdiv 1440

/-- `String(n).padStart(2, '0')` for a date component. -/
def pad2 (n : Int) : String :=
  if n < 10 then "0" ++ toString n else toString n

/-- Format a civil date as `YYYY-MM-DD`. -/
def isoOfCivil (c : Int × Int × Int) : String :=
  toString c.1 ++ "-" ++ pad2 c.2.1 ++ "-" ++ pad2 c.2.2

/-- `getLocalDateString` (`src/hooks/useAppData.ts`, lines 12-18):
`getFullYear`/`getMonth`/`getDate` of the instant, zero-padded — the local
calendar date.  This is the key under which `useAppData` selects, caches and
materializes daily logs. -/
def getLocalDateString (epochMin tzOffsetMin : Int) : String :=
  let c := civilFromDays (localDayNumber epochMin tzOffsetMin)
  toString c.1 ++ "-" ++ pad2 c.2.1 ++ "-" ++ pad2 c.2.2

/-- `formatLocalDate` (`src/unnamed/part_012`, lines 28-33): same
computation inside the storage service. -/
def formatLocalDate (epochMin tzOffsetMin : Int) : String :=
  let c := civilFromDays (localDayNumber epochMin tzOffsetMin)
  toString c.1 ++ "-" ++ pad2 c.2.1 ++ "-" ++ pad2 c.2.2

/-- `getTodayDate` (`src/unnamed/part_012`, lines 38-40):
`formatLocalDate(new Date())`. -/
def getTodayDate (epochMin tzOffsetMin : Int) : String :=
  formatLocalDate epochMin tzOffsetMin

/-- `toISOString().split('T')[0]`: the UTC calendar date of the instant
(this is what the superseded `getTodayDate` of `src/services/storage.ts`
computed, kept as the contrast case). -/
def utcDateString (epochMin : Int) : String :=
  isoOfCivil (civilFromDays (utcDayNumber epochMin))

/-- The specified key (from the spec wording): the ISO date of the instant
in the local timezone of the device. -/
def localCalendarDate (epochMin tzOffsetMin : Int) : Int × Int × Int :=
  civilFromDays ((epochMin + tzOffsetMin).fdiv 1440)

/-- `new Date(year, monthIndex, day)` at local midnight: the instant whose
local civil date is the (normalized) given one. -/
def jsDateOfLocal (y m dday tzOffsetMin : Int) : Int :=
  daysFromCivil y m dday * 1440 - tzOffsetMin

/-- The `startDate` of `getMonthCalorieData` (`src/unnamed/part_012`, line
421): `formatLocalDate(new Date(year, month, 1))`, `month` 0-based. -/
def getMonthCalorieDataStartDate (year monthIdx tzOffsetMin : Int) : String :=
  formatLocalDate (jsDateOfLocal year (monthIdx + 1) 1 tzOffsetMin) tzOffsetMin

/-- The `endDate` of `getMonthCalorieData` (line 422):
`formatLocalDate(new Date(year, month + 1, 0))`. -/
def getMonthCalorieDataEndDate (year monthIdx tzOffsetMin : Int) : String :=
  formatLocalDate (jsDateOfLocal year (monthIdx + 2) 0 tzOffsetMin) tzOffsetMin

/-- `getOffsetDateString` (`src/hooks/useAppData.ts`, lines 21-26): parse the
date string, build the local-midnight `Date`, shift it by `setDate(getDate()
+ offsetDays)` and format the local components.  `Number` is modelled on
numeric components (the strings produced by `getLocalDateString`). -/
def getOffsetDateString (dateStr : String) (offsetDays tzOffsetMin : Int) :
    String :=
  let parts := splitOnSep '-' dateStr.data
  let year := ((digitsToNat? (parts.getD 0 [])).getD 0 : Int)
  let month := ((digitsToNat? (parts.getD 1 [])).getD 0 : Int)
  let dday := ((digitsToNat? (parts.getD 2 [])).getD 0 : Int)
  let e0 := jsDateOfLocal year month dday tzOffsetMin
  let c := civilFromDays (localDayNumber e0 tzOffsetMin)
  let e1 := jsDateOfLocal c.1 c.2.1 (c.2.2 + offsetDays) tzOffsetMin
  getLocalDateString e1 tzOffsetMin

/-! Structural lemmas about the replace operation. -/

lemma foldl_insertOps (items : List FoodItem) (d : DB) (u ld m now : String) :
    (items.map (fun food => SqlOp.insertEntry u ld m food now)).foldl applyOp d
      = { d with entries := d.entries ++ rowsFrom items d.nextID u ld m now,
                 nextID := d.nextID + items.length } := by
  induction items generalizing d with
  | nil => simp [rowsFrom]
  | cons f fs ih =>
      simp only [List.map_cons, List.foldl_cons, applyOp]
      rw [ih]
      simp [rowsFrom, Nat.add_assoc, Nat.add_comm, Nat.add_left_comm,
        List.append_assoc]

lemma replace_eq (d : DB) (u ld : String) (r : LLMResponse) (now : String) :
    replaceDailyFoodEntries d u ld r now =
      { d with
        entries := d.entries.filter (fun e => e.dailyLogID != ld)
          ++ insertedRows r d.nextID u ld now,
        nextID := d.nextID + r.allItems.length,
        logs := d.logs.map (fun l =>
          if l.dailyLogID == ld then
            { l with totalCalories := itemsSum r.allItems (·.calories),
                     totalProtein := itemsSum r.allItems (·.protein),
                     totalCarbs := itemsSum r.allItems (·.carbs),
                     totalFat := itemsSum r.allItems (·.fat),
                     updatedAt := now }
          else l) } := by
  unfold replaceDailyFoodEntries replaceOps
  simp only [List.foldl_cons, List.foldl_append]
  rw [show applyOp d (SqlOp.deleteEntries ld)
      = { d with entries := d.entries.filter (fun e => e.dailyLogID != ld) }
    from rfl]
  rw [foldl_insertOps, foldl_insertOps, foldl_insertOps, foldl_insertOps]
  simp only [List.foldl_cons, List.foldl_nil, applyOp]
  simp [insertedRows, LLMResponse.allItems, List.append_assoc, Nat.add_assoc]

lemma mem_rowsFrom_dailyLogID {items : List FoodItem} {id0 : Nat}
    {u ld m now : String} {e : EntryRow}
    (h : e ∈ rowsFrom items id0 u ld m now) : e.dailyLogID = ld := by
  induction items generalizing id0 with
  | nil => simp [rowsFrom] at h
  | cons f fs ih =>
      simp only [rowsFrom, List.mem_cons] at h
      rcases h with h | h
      · subst h; rfl
      · exact ih h

lemma mem_insertedRows_dailyLogID {r : LLMResponse} {id0 : Nat}
    {u ld now : String} {e : EntryRow}
    (h : e ∈ insertedRows r id0 u ld now) : e.dailyLogID = ld := by
  simp only [insertedRows, List.mem_append] at h
  rcases h with ((h | h) | h) | h <;> exact mem_rowsFrom_dailyLogID h

/-- After a replace, the entries of the daily log are exactly the rows
inserted from the extraction result. -/
lemma replace_entriesFor (d : DB) (u ld : String) (r : LLMResponse)
    (now : String) :
    entriesFor (replaceDailyFoodEntries d u ld r now) ld
      = insertedRows r d.nextID u ld now := by
  rw [replace_eq]
  show ((d.entries.filter (fun e => e.dailyLogID != ld)
      ++ insertedRows r d.nextID u ld now).filter
        (fun e => e.dailyLogID == ld)) = _
  rw [List.filter_append]
  have h1 : (d.entries.filter (fun e => e.dailyLogID != ld)).filter
      (fun e => e.dailyLogID == ld) = [] := by
    rw [List.filter_eq_nil_iff]
    intro a ha
    have := (List.mem_filter.mp ha).2
    simp only [bne_iff_ne, ne_eq] at this
    simp [this]
  have h2 : (insertedRows r d.nextID u ld now).filter
      (fun e => e.dailyLogID == ld) = insertedRows r d.nextID u ld now := by
    rw [List.filter_eq_self]
    intro a ha
    simp [mem_insertedRows_dailyLogID ha]
  rw [h1, h2, List.nil_append]

/-- After a replace, the entries of every other daily log are untouched. -/
lemma replace_entriesFor_other (d : DB) (u ld ld2 : String) (r : LLMResponse)
    (now : String) (hne : ld2 ≠ ld) :
    entriesFor (replaceDailyFoodEntries d u ld r now) ld2
      = entriesFor d ld2 := by
  rw [replace_eq]
  show ((d.entries.filter (fun e => e.dailyLogID != ld)
      ++ insertedRows r d.nextID u ld now).filter
        (fun e => e.dailyLogID == ld2)) = _
  rw [List.filter_append]
  have h2 : (insertedRows r d.nextID u ld now).filter
      (fun e => e.dailyLogID == ld2) = [] := by
    rw [List.filter_eq_nil_iff]
    intro a ha
    have := mem_insertedRows_dailyLogID ha
    simp [this, hne.symm]
  rw [h2, List.append_nil, List.filter_filter]
  apply List.filter_congr
  intro a _
  by_cases h : a.dailyLogID = ld2
  · simp [h, hne]
  · simp [h]

lemma rowsSum_eq_sum (l : List EntryRow) (f : EntryRow → Int) :
    rowsSum l f = (l.map f).sum := by
  suffices h : ∀ a, l.foldl (fun s e => s + f e) a = a + (l.map f).sum by
    simpa [rowsSum] using h 0
  induction l with
  | nil => simp
  | cons e es ih => intro a; simp [List.foldl_cons, ih, add_assoc]

lemma itemsSum_eq_sum (l : List FoodItem) (f : FoodItem → Int) :
    itemsSum l f = (l.map f).sum := by
  suffices h : ∀ a, l.foldl (fun s i => s + f i) a = a + (l.map f).sum by
    simpa [itemsSum] using h 0
  induction l with
  | nil => simp
  | cons e es ih => intro a; simp [List.foldl_cons, ih, add_assoc]

lemma rowsFrom_map_proj {α : Type} (F : EntryRow → α) (G : FoodItem → α)
    (items : List FoodItem) (id0 : Nat) (u ld m now : String)
    (h : ∀ f id, F (f.toRow id u ld m now) = G f) :
    (rowsFrom items id0 u ld m now).map F = items.map G := by
  induction items generalizing id0 with
  | nil => simp [rowsFrom]
  | cons f fs ih => simp [rowsFrom, h, ih]

/-- Projections of the inserted rows that do not depend on the id, the meal
slot or the timestamp agree with the same projection of the items. -/
lemma insertedRows_map_proj {α : Type} (F : EntryRow → α) (G : FoodItem → α)
    (r : LLMResponse) (id0 : Nat) (u ld now : String)
    (h : ∀ f id m now2, F (f.toRow id u ld m now2) = G f) :
    (insertedRows r id0 u ld now).map F = r.allItems.map G := by
  simp only [insertedRows, LLMResponse.allItems, List.map_append]
  rw [rowsFrom_map_proj F G _ _ _ _ _ _ (fun f id => h f id _ _),
    rowsFrom_map_proj F G _ _ _ _ _ _ (fun f id => h f id _ _),
    rowsFrom_map_proj F G _ _ _ _ _ _ (fun f id => h f id _ _),
    rowsFrom_map_proj F G _ _ _ _ _ _ (fun f id => h f id _ _)]

lemma rowsFrom_filter_meal_length (items : List FoodItem) (id0 : Nat)
    (u ld m now mm : String) :
    ((rowsFrom items id0 u ld m now).filter (fun e => e.mealType == mm)).length
      = if m == mm then items.length else 0 := by
  induction items generalizing id0 with
  | nil => cases h : (m == mm) <;> simp [rowsFrom, h]
  | cons f fs ih =>
      cases h : (m == mm) <;>
        simp [rowsFrom, FoodItem.toRow, List.filter_cons, h, ih]

/-- The number of entries of each meal slot after inserting the rows of an
extraction result depends only on the result, not on the id supply or the
timestamp. -/
lemma insertedRows_meal_count (r : LLMResponse) (id0 : Nat)
    (u ld now mm : String) :
    ((insertedRows r id0 u ld now).filter (fun e => e.mealType == mm)).length
      = (if ("breakfast" == mm) then r.breakfast.length else 0)
        + (if ("lunch" == mm) then r.lunch.length else 0)
        + (if ("dinner" == mm) then r.dinner.length else 0)
        + (if ("snacks" == mm) then r.snacks.length else 0) := by
  simp only [insertedRows, List.filter_append, List.length_append,
    rowsFrom_filter_meal_length]

lemma find?_map_pred (g : LogRow → LogRow) (p : LogRow → Bool)
    (hp : ∀ l, p (g l) = p l) (l : List LogRow) :
    (l.map g).find? p = (l.find? p).map g := by
  induction l with
  | nil => rfl
  | cons x xs ih =>
      simp only [List.map_cons, List.find?_cons, hp]
      cases h : p x <;> simp [h, ih]

lemma execOps_ok {ops : List SqlOp} {faults : List Bool} {d d2 : DB}
    (h : execOps ops faults d = .ok d2) : d2 = ops.foldl applyOp d := by
  induction ops generalizing faults d with
  | nil =>
      simp only [execOps] at h
      cases h
      rfl
  | cons op ops ih =>
      simp only [execOps] at h
      split at h
      · exact ih h
      · cases h

/-- `withTransactionAsync` dichotomy: either every statement ran and the
result is the fully applied state, or the transaction failed and the
observable state is exactly the initial one. -/
lemma runTransaction_cases (d : DB) (ops : List SqlOp) (faults : List Bool) :
    runTransaction d ops faults = (ops.foldl applyOp d, .ok ())
      ∨ runTransaction d ops faults = (d, .error ()) := by
  unfold runTransaction
  rcases h : execOps ops faults d with d2 | u
  · right; rfl
  · left
    rw [execOps_ok h]

/-- The function applied to every daily-log row by the totals update of a
replace. -/
def replaceTotalsFn (ld : String) (r : LLMResponse) (now : String) :
    LogRow → LogRow := fun l =>
  if l.dailyLogID == ld then
    { l with totalCalories := itemsSum r.allItems (·.calories),
             totalProtein := itemsSum r.allItems (·.protein),
             totalCarbs := itemsSum r.allItems (·.carbs),
             totalFat := itemsSum r.allItems (·.fat),
             updatedAt := now }
  else l

lemma replace_logs_eq (d : DB) (u ld : String) (r : LLMResponse)
    (now : String) :
    (replaceDailyFoodEntries d u ld r now).logs
      = d.logs.map (replaceTotalsFn ld r now) := by
  rw [replace_eq]; rfl

/-- After a replace, the totals stored on the daily-log row are the upfront
sums over all items of the result (when the row exists). -/
lemma replace_storedTotals (d : DB) (u ld : String) (r : LLMResponse)
    (now : String) :
    storedTotals (replaceDailyFoodEntries d u ld r now) ld
      = (d.logs.find? (fun l => l.dailyLogID == ld)).map (fun _ =>
          (itemsSum r.allItems (·.calories), itemsSum r.allItems (·.protein),
           itemsSum r.allItems (·.carbs), itemsSum r.allItems (·.fat))) := by
  simp only [storedTotals, replace_logs_eq]
  rw [find?_map_pred (replaceTotalsFn ld r now) _ ?hpres d.logs]
  case hpres =>
    intro l
    unfold replaceTotalsFn
    split <;> rfl
  rcases h : d.logs.find? (fun l => l.dailyLogID == ld) with _ | l0
  · rw [h]
    rfl
  · rw [h]
    have hp0 := List.find?_some h
    simp [replaceTotalsFn, hp0]

/-- A replace commutes with looking up a daily-log row by a predicate that
ignores the totals and the update timestamp. -/
lemma replace_logs_find (d : DB) (u ld : String) (r : LLMResponse)
    (now : String) (p : LogRow → Bool)
    (hp : ∀ (l : LogRow) (tc tp tcb tf : Int) (ts : String),
      p { l with totalCalories := tc, totalProtein := tp, totalCarbs := tcb,
                 totalFat := tf, updatedAt := ts } = p l) :
    (replaceDailyFoodEntries d u ld r now).logs.find? p
      = (d.logs.find? p).map (replaceTotalsFn ld r now) := by
  rw [replace_logs_eq]
  refine find?_map_pred (replaceTotalsFn ld r now) p ?_ d.logs
  intro l
  unfold replaceTotalsFn
  split
  · exact hp l _ _ _ _ _
  · rfl

/-- **C1**: `replaceDailyFoodEntries` is atomic.  Under any failure injection
into its statement sequence, the observable outcome is either the fully
replaced state — every existing entry of the day deleted, every item of all
four meal slots inserted, recomputed aggregate totals stored — or an error
with the stored state exactly the initial one.  No state with the entries
deleted but the new items not yet inserted is ever observable. -/
theorem replaceDailyFoodEntries_atomic (d : DB) (u ld : String)
    (r : LLMResponse) (now : String) (faults : List Bool) :
    (replaceDailyFoodEntriesExec d u ld r now faults
        = (replaceDailyFoodEntries d u ld r now, .ok ())
      ∨ replaceDailyFoodEntriesExec d u ld r now faults = (d, .error ()))
    ∧ entriesFor (replaceDailyFoodEntries d u ld r now) ld
        = insertedRows r d.nextID u ld now
    ∧ storedTotals (replaceDailyFoodEntries d u ld r now) ld
        = (d.logs.find? (fun l => l.dailyLogID == ld)).map (fun _ =>
            (itemsSum r.allItems (·.calories), itemsSum r.allItems (·.protein),
             itemsSum r.allItems (·.carbs), itemsSum r.allItems (·.fat))) :=
  ⟨runTransaction_cases d (replaceOps u ld r now) faults,
    replace_entriesFor d u ld r now, replace_storedTotals d u ld r now⟩

/-- **C3**: sum-consistency.  For a valid extraction result with
distinct-named items, a replace followed by a cache-invalidated read
(`getOrCreateDailyLog` straight from the store) returns a `DailyLog` whose
four totals each equal the sum of that macro over all items of the four meal
arrays of the result. -/
theorem sum_consistency (d : DB) (u ld date now now2 : String)
    (r : LLMResponse) (lr : LogRow)
    (hfind : d.logs.find? (fun l => l.userID == u && l.date == date) = some lr)
    (hld : lr.dailyLogID = ld)
    (_hnames : (r.allItems.map (fun f => f.name)).Nodup) :
    ((getOrCreateDailyLog (replaceDailyFoodEntries d u ld r now)
        u date now2).2.totalCalories
      = ((r.breakfast ++ r.lunch ++ r.dinner ++ r.snacks).map
          (fun f => f.calories)).sum)
    ∧ ((getOrCreateDailyLog (replaceDailyFoodEntries d u ld r now)
        u date now2).2.totalProtein
      = ((r.breakfast ++ r.lunch ++ r.dinner ++ r.snacks).map
          (fun f => f.protein)).sum)
    ∧ ((getOrCreateDailyLog (replaceDailyFoodEntries d u ld r now)
        u date now2).2.totalCarbs
      = ((r.breakfast ++ r.lunch ++ r.dinner ++ r.snacks).map
          (fun f => f.carbs)).sum)
    ∧ ((getOrCreateDailyLog (replaceDailyFoodEntries d u ld r now)
        u date now2).2.totalFat
      = ((r.breakfast ++ r.lunch ++ r.dinner ++ r.snacks).map
          (fun f => f.fat)).sum) := by
  have hfind2 : (replaceDailyFoodEntries d u ld r now).logs.find?
      (fun l => l.userID == u && l.date == date)
      = some (replaceTotalsFn ld r now lr) := by
    rw [replace_logs_find d u ld r now (fun l => l.userID == u && l.date == date)
      (fun l tc tp tcb tf ts => rfl), hfind]
    rfl
  have hread : getOrCreateDailyLog (replaceDailyFoodEntries d u ld r now)
      u date now2
      = getOrCreateDailyLogFound (replaceDailyFoodEntries d u ld r now)
          (replaceTotalsFn ld r now lr) u date now2 := by
    unfold getOrCreateDailyLog
    rw [hfind2]
  have hid : (replaceTotalsFn ld r now lr).dailyLogID = ld := by
    unfold replaceTotalsFn
    split <;> exact hld
  rw [hread]
  unfold getOrCreateDailyLogFound
  simp only [hid, replace_entriesFor]
  refine ⟨?_, ?_, ?_, ?_⟩ <;>
    · rw [rowsSum_eq_sum,
        insertedRows_map_proj _ _ _ _ _ _ _ (fun f id m now3 => rfl)]
      rfl

/-- Witness for the sum-consistency theorem: a concrete database with one
daily-log row and a two-item extraction result; the read-back totals are the
sums 210 + 95 and 18 + 0. -/
theorem sum_consistency_witness :
    ((getOrCreateDailyLog (replaceDailyFoodEntries
        ⟨[⟨"L", "u1", "2025-10-04", 0, 0, 0, 0, 2690, 170, 300, 90, "t0", "t0"⟩],
          [], [], 0⟩
        "u1" "L"
        ⟨[⟨"eggs", "3 large", 210, 18, 1, 15⟩], [], [],
          [⟨"apple", "1 medium", 95, 0, 25, 0⟩]⟩ "t1")
      "u1" "2025-10-04" "t2").2.totalCalories = 305)
    ∧ ((getOrCreateDailyLog (replaceDailyFoodEntries
        ⟨[⟨"L", "u1", "2025-10-04", 0, 0, 0, 0, 2690, 170, 300, 90, "t0", "t0"⟩],
          [], [], 0⟩
        "u1" "L"
        ⟨[⟨"eggs", "3 large", 210, 18, 1, 15⟩], [], [],
          [⟨"apple", "1 medium", 95, 0, 25, 0⟩]⟩ "t1")
      "u1" "2025-10-04" "t2").2.totalProtein = 18) := by
  have h := sum_consistency
    ⟨[⟨"L", "u1", "2025-10-04", 0, 0, 0, 0, 2690, 170, 300, 90, "t0", "t0"⟩],
      [], [], 0⟩
    "u1" "L" "2025-10-04" "t1" "t2"
    ⟨[⟨"eggs", "3 large", 210, 18, 1, 15⟩], [], [],
      [⟨"apple", "1 medium", 95, 0, 25, 0⟩]⟩
    ⟨"L", "u1", "2025-10-04", 0, 0, 0, 0, 2690, 170, 300, 90, "t0", "t0"⟩
    (by decide) rfl (by decide)
  refine ⟨?_, ?_⟩
  · rw [h.1]; decide
  · rw [h.2.1]; decide

/-- **C5**: idempotence of the replace.  Running `replaceDailyFoodEntries`
twice with the same extraction result leaves a stored day identical, in all
four totals and in the number of food entries of every meal slot, to the
result of running it once: no entries are duplicated. -/
theorem replace_idempotent (d : DB) (u ld now1 now2 : String)
    (r : LLMResponse) :
    storedTotals
        (replaceDailyFoodEntries (replaceDailyFoodEntries d u ld r now1)
          u ld r now2) ld
      = storedTotals (replaceDailyFoodEntries d u ld r now1) ld
    ∧ ∀ mm : String,
        ((entriesFor (replaceDailyFoodEntries
            (replaceDailyFoodEntries d u ld r now1) u ld r now2) ld).filter
            (fun e => e.mealType == mm)).length
          = ((entriesFor (replaceDailyFoodEntries d u ld r now1) ld).filter
              (fun e => e.mealType == mm)).length := by
  constructor
  · rw [replace_storedTotals, replace_storedTotals, replace_logs_eq]
    rw [find?_map_pred (replaceTotalsFn ld r now1) _ ?hpres d.logs]
    case hpres =>
      intro l
      unfold replaceTotalsFn
      split <;> rfl
    rcases h : d.logs.find? (fun l => l.dailyLogID == ld) with _ | l0 <;>
      rw [h] <;> rfl
  · intro mm
    rw [replace_entriesFor, replace_entriesFor,
      insertedRows_meal_count, insertedRows_meal_count]

/-- **C7** counterexample: on a day holding one stored entry (with matching
stored totals), reconciling the schema-valid all-empty extraction result does
not preserve the stored entries and totals — the claim fails at this input. -/
theorem replace_empty_not_preserving :
    ¬(entriesFor (replaceDailyFoodEntries
        ⟨[⟨"L", "u1", "2025-10-04", 210, 18, 1, 15, 2690, 170, 300, 90,
            "t0", "t0"⟩],
          [⟨0, "u1", "L", "breakfast", "eggs", "3 large", 210, 18, 1, 15,
            "t0", "t0"⟩], [], 1⟩
        "u1" "L" LLMResponse.empty "t1") "L"
        = entriesFor
          ⟨[⟨"L", "u1", "2025-10-04", 210, 18, 1, 15, 2690, 170, 300, 90,
              "t0", "t0"⟩],
            [⟨0, "u1", "L", "breakfast", "eggs", "3 large", 210, 18, 1, 15,
              "t0", "t0"⟩], [], 1⟩ "L"
      ∧ storedTotals (replaceDailyFoodEntries
        ⟨[⟨"L", "u1", "2025-10-04", 210, 18, 1, 15, 2690, 170, 300, 90,
            "t0", "t0"⟩],
          [⟨0, "u1", "L", "breakfast", "eggs", "3 large", 210, 18, 1, 15,
            "t0", "t0"⟩], [], 1⟩
        "u1" "L" LLMResponse.empty "t1") "L"
        = storedTotals
          ⟨[⟨"L", "u1", "2025-10-04", 210, 18, 1, 15, 2690, 170, 300, 90,
              "t0", "t0"⟩],
            [⟨0, "u1", "L", "breakfast", "eggs", "3 large", 210, 18, 1, 15,
              "t0", "t0"⟩], [], 1⟩ "L") := by
  decide

/-- **C7** amended: reconciling a schema-valid all-empty extraction result
replaces the day with the empty day — every stored entry of the day is
deleted and the stored totals become zero — while the entries of every other
day are untouched.  The prior state of the day is therefore preserved only
when the day was already empty; preserving a non-empty day on a no-food
utterance is delegated to the extraction prompt, which instructs the service
to echo the existing items back. -/
theorem replace_empty_clears (d : DB) (u ld now : String) :
    entriesFor (replaceDailyFoodEntries d u ld LLMResponse.empty now) ld = []
    ∧ storedTotals (replaceDailyFoodEntries d u ld LLMResponse.empty now) ld
        = (d.logs.find? (fun l => l.dailyLogID == ld)).map
            (fun _ => (0, 0, 0, 0))
    ∧ ∀ ld2, ld2 ≠ ld →
        entriesFor (replaceDailyFoodEntries d u ld LLMResponse.empty now) ld2
          = entriesFor d ld2 := by
  refine ⟨?_, ?_, ?_⟩
  · rw [replace_entriesFor]
    rfl
  · rw [replace_storedTotals]
    rfl
  · intro ld2 h
    exact replace_entriesFor_other d u ld ld2 _ now h

/-- Witness for the amended empty-replace theorem: a concrete database with
entries on two days; the replaced day becomes empty and the other day keeps
its entry. -/
theorem replace_empty_clears_witness :
    entriesFor (replaceDailyFoodEntries
        ⟨[⟨"L", "u1", "2025-10-04", 210, 18, 1, 15, 2690, 170, 300, 90,
            "t0", "t0"⟩],
          [⟨0, "u1", "L", "breakfast", "eggs", "3 large", 210, 18, 1, 15,
            "t0", "t0"⟩,
           ⟨1, "u1", "M", "lunch", "rice", "1 cup", 200, 4, 45, 0,
            "t0", "t0"⟩], [], 2⟩
        "u1" "L" LLMResponse.empty "t1") "L" = []
    ∧ entriesFor (replaceDailyFoodEntries
        ⟨[⟨"L", "u1", "2025-10-04", 210, 18, 1, 15, 2690, 170, 300, 90,
            "t0", "t0"⟩],
          [⟨0, "u1", "L", "breakfast", "eggs", "3 large", 210, 18, 1, 15,
            "t0", "t0"⟩,
           ⟨1, "u1", "M", "lunch", "rice", "1 cup", 200, 4, 45, 0,
            "t0", "t0"⟩], [], 2⟩
        "u1" "L" LLMResponse.empty "t1") "M"
        = entriesFor
          ⟨[⟨"L", "u1", "2025-10-04", 210, 18, 1, 15, 2690, 170, 300, 90,
              "t0", "t0"⟩],
            [⟨0, "u1", "L", "breakfast", "eggs", "3 large", 210, 18, 1, 15,
              "t0", "t0"⟩,
             ⟨1, "u1", "M", "lunch", "rice", "1 cup", 200, 4, 45, 0,
              "t0", "t0"⟩], [], 2⟩ "M" :=
  ⟨(replace_empty_clears
      ⟨[⟨"L", "u1", "2025-10-04", 210, 18, 1, 15, 2690, 170, 300, 90,
          "t0", "t0"⟩],
        [⟨0, "u1", "L", "breakfast", "eggs", "3 large", 210, 18, 1, 15,
          "t0", "t0"⟩,
         ⟨1, "u1", "M", "lunch", "rice", "1 cup", 200, 4, 45, 0,
          "t0", "t0"⟩], [], 2⟩ "u1" "L" "t1").1,
    (replace_empty_clears
      ⟨[⟨"L", "u1", "2025-10-04", 210, 18, 1, 15, 2690, 170, 300, 90,
          "t0", "t0"⟩],
        [⟨0, "u1", "L", "breakfast", "eggs", "3 large", 210, 18, 1, 15,
          "t0", "t0"⟩,
         ⟨1, "u1", "M", "lunch", "rice", "1 cup", 200, 4, 45, 0,
          "t0", "t0"⟩], [], 2⟩ "u1" "L" "t1").2.2 "M" (by decide)⟩

/-- **C4**: the cancellation race.  After `cancelProcessing` sets the
cancellation flag, the eventual resolution of the in-flight extraction —
success or failure — leaves the hook state exactly as the cancellation left
it: the parsed result is dropped (so a subsequent `saveParsedFood` performs
no database mutation) and the error state set by the cancellation is not
changed. -/
theorem cancellation_race (s : LoggerState) (r : LLMResponse) (msg : String)
    (wasBackgrounded : Bool) (d : DB) (dailyLogID userID now : String) :
    resolveSuccess r (cancelProcessing s) = cancelProcessing s
    ∧ resolveFailure msg wasBackgrounded (cancelProcessing s)
        = cancelProcessing s
    ∧ saveParsedFood (resolveSuccess r (cancelProcessing s))
        d dailyLogID userID now = d
    ∧ saveParsedFood (resolveFailure msg wasBackgrounded (cancelProcessing s))
        d dailyLogID userID now = d
    ∧ (resolveSuccess r (cancelProcessing s)).llmError
        = (cancelProcessing s).llmError
    ∧ (resolveFailure msg wasBackgrounded (cancelProcessing s)).llmError
        = (cancelProcessing s).llmError :=
  ⟨rfl, rfl, rfl, rfl, rfl, rfl⟩

/-! Lemmas about the retry loop. -/

lemma genLoop_stop (o : Nat → Except String Unit) (fuel k : Nat)
    (delays : List Nat) (h : stopsAt o k = true) :
    genLoop o (fuel + 1) k delays = ⟨k + 1, delays, finalOf (o k)⟩ := by
  unfold stopsAt at h
  rcases hk : o k with m | u
  · rw [hk] at h
    simp only [Bool.not_eq_true'] at h
    show (match o k with
      | .ok _ => (⟨k + 1, delays, .ok ()⟩ : GenOutcome)
      | .error msg =>
          if k < MAX_RETRIES && isRetryableError msg then
            genLoop o fuel (k + 1) (delays ++ [INITIAL_RETRY_DELAY_MS * 2 ^ k])
          else ⟨k + 1, delays, .error (mapFinalError msg)⟩) = _
    rw [hk]
    have hne : ¬((decide (k < MAX_RETRIES) && isRetryableError m) = true) := by
      rw [h]
      exact Bool.false_ne_true
    dsimp only
    rw [if_neg hne]
    rfl
  · show (match o k with
      | .ok _ => (⟨k + 1, delays, .ok ()⟩ : GenOutcome)
      | .error msg =>
          if k < MAX_RETRIES && isRetryableError msg then
            genLoop o fuel (k + 1) (delays ++ [INITIAL_RETRY_DELAY_MS * 2 ^ k])
          else ⟨k + 1, delays, .error (mapFinalError msg)⟩) = _
    rw [hk]
    rfl

lemma genLoop_retry (o : Nat → Except String Unit) (fuel k : Nat)
    (delays : List Nat) (h : stopsAt o k = false) :
    genLoop o (fuel + 1) k delays
      = genLoop o fuel (k + 1) (delays ++ [INITIAL_RETRY_DELAY_MS * 2 ^ k]) := by
  unfold stopsAt at h
  rcases hk : o k with m | u
  · rw [hk] at h
    dsimp only at h
    have h' : (decide (k < MAX_RETRIES) && isRetryableError m) = true := by
      cases hb : decide (k < MAX_RETRIES) && isRetryableError m with
      | false => rw [hb] at h; simp at h
      | true => rfl
    show (match o k with
      | .ok _ => (⟨k + 1, delays, .ok ()⟩ : GenOutcome)
      | .error msg =>
          if k < MAX_RETRIES && isRetryableError msg then
            genLoop o fuel (k + 1) (delays ++ [INITIAL_RETRY_DELAY_MS * 2 ^ k])
          else ⟨k + 1, delays, .error (mapFinalError msg)⟩) = _
    rw [hk]
    dsimp only
    rw [if_pos h']
  · rw [hk] at h
    simp at h

lemma stopsAt_false_elim {o : Nat → Except String Unit} {k : Nat}
    (h : stopsAt o k = false) :
    ∃ m, o k = .error m ∧ k < MAX_RETRIES ∧ isRetryableError m = true := by
  unfold stopsAt at h
  rcases hk : o k with m | u
  · rw [hk] at h
    dsimp only at h
    have h' : (decide (k < MAX_RETRIES) && isRetryableError m) = true := by
      cases hb : decide (k < MAX_RETRIES) && isRetryableError m with
      | false => rw [hb] at h; simp at h
      | true => rfl
    simp only [Bool.and_eq_true, decide_eq_true_eq] at h'
    exact ⟨m, rfl, h'.1, h'.2⟩
  · rw [hk] at h
    simp at h

lemma stopsAt_last (o : Nat → Except String Unit) :
    stopsAt o MAX_RETRIES = true := by
  unfold stopsAt
  rcases hk : o MAX_RETRIES with m | u
  · simp
  · rfl

/-- Full characterization of the retry loop from attempt 0: it stops at
`stopIndex`, has made `stopIndex + 1` attempts, slept the exponential delays
before each retry, and returns the translated outcome of the stopping
attempt. -/
lemma genLoop_spec (o : Nat → Except String Unit) :
    genLoop o (MAX_RETRIES + 1) 0 []
      = ⟨stopIndex o + 1,
         (List.range (stopIndex o)).map
           (fun i => INITIAL_RETRY_DELAY_MS * 2 ^ i),
         finalOf (o (stopIndex o))⟩ := by
  unfold stopIndex
  by_cases h0 : stopsAt o 0 = true
  · rw [if_pos h0, genLoop_stop o _ 0 [] h0]
    simp
  · have h0f : stopsAt o 0 = false := Bool.eq_false_iff.mpr h0
    rw [if_neg h0, genLoop_retry o MAX_RETRIES 0 [] h0f,
      show (MAX_RETRIES : Nat) = 2 + 1 from rfl]
    by_cases h1 : stopsAt o 1 = true
    · rw [if_pos h1, genLoop_stop o 2 1 _ h1]
      simp [List.range_succ]
    · have h1f : stopsAt o 1 = false := Bool.eq_false_iff.mpr h1
      rw [if_neg h1, genLoop_retry o 2 1 _ h1f,
        show (2 : Nat) = 1 + 1 from rfl]
      by_cases h2 : stopsAt o 2 = true
      · rw [if_pos h2, genLoop_stop o 1 2 _ h2]
        simp [List.range_succ]
      · have h2f : stopsAt o 2 = false := Bool.eq_false_iff.mpr h2
        rw [if_neg h2, genLoop_retry o 1 2 _ h2f,
          show (1 : Nat) = 0 + 1 from rfl]
        rw [genLoop_stop o 0 3 _ (stopsAt_last o)]
        simp [List.range_succ]

lemma stopIndex_le (o : Nat → Except String Unit) :
    stopIndex o ≤ MAX_RETRIES := by
  unfold stopIndex
  split_ifs <;> simp [MAX_RETRIES]

lemma stopsAt_of_lt_stopIndex (o : Nat → Except String Unit) {i : Nat}
    (h : i < stopIndex o) : stopsAt o i = false := by
  unfold stopIndex at h
  split_ifs at h with h0 h1 h2
  · omega
  · have : i = 0 := by omega
    subst this
    exact Bool.eq_false_iff.mpr h0
  · have : i = 0 ∨ i = 1 := by omega
    rcases this with h' | h' <;> subst h'
    · exact Bool.eq_false_iff.mpr h0
    · exact Bool.eq_false_iff.mpr h1
  · have : i = 0 ∨ i = 1 ∨ i = 2 := by omega
    rcases this with h' | h' | h' <;> subst h'
    · exact Bool.eq_false_iff.mpr h0
    · exact Bool.eq_false_iff.mpr h1
    · exact Bool.eq_false_iff.mpr h2

lemma stopIndex_eq (o : Nat → Except String Unit) {k : Nat}
    (hk : k ≤ MAX_RETRIES) (hstop : stopsAt o k = true)
    (hprev : ∀ j, j < k → stopsAt o j = false) : stopIndex o = k := by
  have hk3 : k ≤ 3 := hk
  unfold stopIndex
  interval_cases k
  · rw [if_pos hstop]
  · rw [if_neg (by rw [hprev 0 (by omega)]; exact Bool.false_ne_true),
      if_pos hstop]
  · rw [if_neg (by rw [hprev 0 (by omega)]; exact Bool.false_ne_true),
      if_neg (by rw [hprev 1 (by omega)]; exact Bool.false_ne_true),
      if_pos hstop]
  · rw [if_neg (by rw [hprev 0 (by omega)]; exact Bool.false_ne_true),
      if_neg (by rw [hprev 1 (by omega)]; exact Bool.false_ne_true),
      if_neg (by rw [hprev 2 (by omega)]; exact Bool.false_ne_true)]

/-- **C2** counterexample: with every external call failing with a transient
"timeout" error, `generate` makes 4 attempts — one initial call plus
`MAX_RETRIES = 3` retries — not at most 3 as claimed, sleeping 2s, 4s and 8s
between them. -/
theorem gemini_retry_counterexample :
    ¬((geminiGenerate true (fun _ => .error "timeout")).attempts ≤ 3)
    ∧ (geminiGenerate true (fun _ => .error "timeout")).attempts = 4
    ∧ (geminiGenerate true (fun _ => .error "timeout")).delays
        = [2000, 4000, 8000] := by
  refine ⟨?_, ?_, ?_⟩ <;> decide

/-- **C2** amended: for every extraction request, the client makes at most
`MAX_RETRIES + 1 = 4` attempts of the external call; before the (i+1)-th
attempt it sleeps `2000 * 2 ^ i` ms (2s, 4s, 8s); every non-final attempt
failed with an error classified retryable (message containing, case
insensitively, timeout, timed out, network request failed, econnreset,
enotfound or econnrefused); and a failure that is not classified retryable
stops the loop immediately — no further attempt — throwing the translated
error. -/
theorem gemini_retry_policy (configured : Bool)
    (o : Nat → Except String Unit) :
    (geminiGenerate configured o).attempts ≤ MAX_RETRIES + 1
    ∧ (geminiGenerate configured o).delays
        = (List.range ((geminiGenerate configured o).attempts - 1)).map
            (fun i => INITIAL_RETRY_DELAY_MS * 2 ^ i)
    ∧ (∀ i, i + 1 < (geminiGenerate configured o).attempts →
        ∃ m, o i = .error m ∧ isRetryableError m = true)
    ∧ (∀ k m, o k = .error m → isRetryableError m = false →
        (∀ j, j < k → stopsAt o j = false) → k ≤ MAX_RETRIES →
        configured = true →
        (geminiGenerate configured o).attempts = k + 1
          ∧ (geminiGenerate configured o).result
              = .error (mapFinalError m)) := by
  by_cases hc : configured = true
  · subst hc
    have hg : geminiGenerate true o
        = ⟨stopIndex o + 1,
           (List.range (stopIndex o)).map
             (fun i => INITIAL_RETRY_DELAY_MS * 2 ^ i),
           finalOf (o (stopIndex o))⟩ := genLoop_spec o
    have hle := stopIndex_le o
    refine ⟨?_, ?_, ?_, ?_⟩
    · rw [hg]
      show stopIndex o + 1 ≤ MAX_RETRIES + 1
      omega
    · rw [hg]
      simp
    · intro i hi
      rw [hg] at hi
      have hlt : i < stopIndex o := by
        have : i + 1 < stopIndex o + 1 := hi
        omega
      obtain ⟨m, hm, _, hr⟩ := stopsAt_false_elim (stopsAt_of_lt_stopIndex o hlt)
      exact ⟨m, hm, hr⟩
    · intro k m hk hm hprev hkle _
      have hstop : stopsAt o k = true := by
        unfold stopsAt
        rw [hk]
        dsimp only
        rw [hm]
        simp
      have hidx : stopIndex o = k := stopIndex_eq o hkle hstop hprev
      rw [hg, hidx]
      refine ⟨rfl, ?_⟩
      show finalOf (o k) = .error (mapFinalError m)
      rw [hk]
      rfl
  · have hc' : configured = false := by
      revert hc
      cases configured <;> simp
    subst hc'
    refine ⟨by simp [geminiGenerate], by simp [geminiGenerate], ?_, ?_⟩
    · intro i hi
      simp [geminiGenerate] at hi
    · intro k m _ _ _ _ hfalse
      cases hfalse

/-- Witness for the amended retry policy: with two transient failures and a
success on the third call, the client reports success after 3 attempts with
backoff sleeps of 2s and 4s, and the retried attempt 1 failed with a
retryable error. -/
theorem gemini_retry_policy_witness :
    (∃ m, (fun k => if k < 2 then (Except.error "timeout" : Except String Unit)
            else .ok ()) 1 = .error m
        ∧ isRetryableError m = true)
    ∧ (geminiGenerate true
        (fun k => if k < 2 then .error "timeout" else .ok ())).attempts = 3
    ∧ (geminiGenerate true
        (fun k => if k < 2 then .error "timeout" else .ok ())).delays
        = [2000, 4000] :=
  ⟨(gemini_retry_policy true
      (fun k => if k < 2 then .error "timeout" else .ok ())).2.2.1 1
      (by decide),
    by decide, by decide⟩

lemma validateItems_error_of_mem {l : List FoodItemParsed}
    {x : FoodItemParsed} (hx : x ∈ l) {e : String}
    (hitem : validateFoodItem x = .error e) :
    ∃ e2, validateItems l = .error e2 := by
  induction l with
  | nil => cases hx
  | cons a as ih =>
      rcases List.mem_cons.mp hx with h | h
      · subst h
        refine ⟨e, ?_⟩
        unfold validateItems
        rw [hitem]
      · rcases ha : validateFoodItem a with e3 | v
        · exact ⟨e3, by unfold validateItems; rw [ha]⟩
        · obtain ⟨e2, h2⟩ := ih h
          refine ⟨e2, ?_⟩
          unfold validateItems
          rw [ha, h2]

/-- **C6**: hard schema validation.  If any item of any of the four meal
arrays of the parsed response has a name that is missing or not a string,
the whole validation throws: `validateAndNormalizeLLMResponse` returns an
error, and `parseFoodInput` propagates it — it never returns a
partially-valid day containing only the well-formed items. -/
theorem validation_rejects_whole (resp : LLMResponseParsed)
    (item : FoodItemParsed)
    (hmem : item ∈ resp.breakfast ∨ item ∈ resp.lunch
      ∨ item ∈ resp.dinner ∨ item ∈ resp.snacks)
    (hname : item.name.isString = false) :
    (∃ e, validateAndNormalizeLLMResponse resp = .error e)
    ∧ (∃ e, parseFoodInput (.ok resp) = .error e) := by
  have hitem : validateFoodItem item = .error "Food item must have a name" := by
    unfold validateFoodItem
    rw [if_pos]
    rw [hname]
    simp
  have hval : ∃ e, validateAndNormalizeLLMResponse resp = .error e := by
    rcases hmem with h | h | h | h
    · obtain ⟨e2, h2⟩ := validateItems_error_of_mem h hitem
      exact ⟨e2, by unfold validateAndNormalizeLLMResponse; rw [h2]⟩
    · rcases hb : validateItems resp.breakfast with e0 | b
      · exact ⟨e0, by unfold validateAndNormalizeLLMResponse; rw [hb]⟩
      · obtain ⟨e2, h2⟩ := validateItems_error_of_mem h hitem
        exact ⟨e2, by unfold validateAndNormalizeLLMResponse; rw [hb, h2]⟩
    · rcases hb : validateItems resp.breakfast with e0 | b
      · exact ⟨e0, by unfold validateAndNormalizeLLMResponse; rw [hb]⟩
      · rcases hl : validateItems resp.lunch with e1 | lch
        · exact ⟨e1, by unfold validateAndNormalizeLLMResponse; rw [hb, hl]⟩
        · obtain ⟨e2, h2⟩ := validateItems_error_of_mem h hitem
          exact ⟨e2, by unfold validateAndNormalizeLLMResponse; rw [hb, hl, h2]⟩
    · rcases hb : validateItems resp.breakfast with e0 | b
      · exact ⟨e0, by unfold validateAndNormalizeLLMResponse; rw [hb]⟩
      · rcases hl : validateItems resp.lunch with e1 | lch
        · exact ⟨e1, by unfold validateAndNormalizeLLMResponse; rw [hb, hl]⟩
        · rcases hd : validateItems resp.dinner with e3 | din
          · exact ⟨e3, by unfold validateAndNormalizeLLMResponse; rw [hb, hl, hd]⟩
          · obtain ⟨e2, h2⟩ := validateItems_error_of_mem h hitem
            exact ⟨e2, by
              unfold validateAndNormalizeLLMResponse
              rw [hb, hl, hd, h2]⟩
  refine ⟨hval, ?_⟩
  obtain ⟨e, he⟩ := hval
  refine ⟨"Failed to parse food input: " ++ e, ?_⟩
  unfold parseFoodInput
  dsimp only
  rw [he]

/-- Witness for the validation theorem: a response whose single lunch item
has an undefined name is rejected as a whole by `parseFoodInput`. -/
theorem validation_rejects_whole_witness :
    ∃ e, parseFoodInput
        (.ok ⟨[⟨.str "eggs", "3 large", 210, 18, 1, 15⟩],
          [⟨.undef, "1 cup", 200, 4, 45, 0⟩], [], []⟩)
      = .error e :=
  (validation_rejects_whole
    ⟨[⟨.str "eggs", "3 large", 210, 18, 1, 15⟩],
      [⟨.undef, "1 cup", 200, 4, 45, 0⟩], [], []⟩
    ⟨.undef, "1 cup", 200, 4, 45, 0⟩
    (Or.inr (Or.inl (List.Mem.head _))) rfl).2

/-- The local calendar day of a local-midnight `Date` is the constructed
civil day, independently of the timezone offset. -/
lemma jsDateOfLocal_localDay (y m dday off : Int) :
    localDayNumber (jsDateOfLocal y m dday off) off = daysFromCivil y m dday := by
  unfold localDayNumber jsDateOfLocal
  have h : daysFromCivil y m dday * 1440 - off + off
      = daysFromCivil y m dday * 1440 := by ring
  rw [h]
  exact Int.mul_fdiv_cancel _ (by norm_num)

/-- **C8**: local-date correctness.  The date key produced by
`getLocalDateString` (under which `useAppData` selects, caches and
materializes daily logs) is, for every instant and device offset, exactly
the ISO date of the local calendar day; the storage-side `getTodayDate`
computes the same key; at 23:30 local time on a UTC-8 device the key is the
local date 2025-10-04 while the UTC date is already 2025-10-05; and the
month-range and day-offset computations are independent of the device
offset — no step converts through a UTC calendar date. -/
theorem local_date_correctness :
    (∀ epochMin tzOffsetMin : Int,
        getLocalDateString epochMin tzOffsetMin
          = isoOfCivil (localCalendarDate epochMin tzOffsetMin))
    ∧ (∀ epochMin tzOffsetMin : Int,
        getTodayDate epochMin tzOffsetMin
          = getLocalDateString epochMin tzOffsetMin)
    ∧ (getLocalDateString 29327490 (-480) = "2025-10-04"
        ∧ utcDateString 29327490 = "2025-10-05"
        ∧ getLocalDateString 29327490 (-480) ≠ utcDateString 29327490)
    ∧ (∀ year monthIdx tzOffsetMin : Int,
        getMonthCalorieDataStartDate year monthIdx tzOffsetMin
          = getMonthCalorieDataStartDate year monthIdx 0
        ∧ getMonthCalorieDataEndDate year monthIdx tzOffsetMin
          = getMonthCalorieDataEndDate year monthIdx 0)
    ∧ (∀ (dateStr : String) (offsetDays tzOffsetMin : Int),
        getOffsetDateString dateStr offsetDays tzOffsetMin
          = getOffsetDateString dateStr offsetDays 0) := by
  refine ⟨fun e o => rfl, fun e o => rfl, ⟨by decide, by decide, by decide⟩,
    ?_, ?_⟩
  · intro y mi off
    constructor
    · unfold getMonthCalorieDataStartDate formatLocalDate
      rw [jsDateOfLocal_localDay, jsDateOfLocal_localDay]
    · unfold getMonthCalorieDataEndDate formatLocalDate
      rw [jsDateOfLocal_localDay, jsDateOfLocal_localDay]
  · intro dateStr k off
    simp only [getOffsetDateString, getLocalDateString, jsDateOfLocal_localDay]

/-- `calculateMissingField` on a fully-set 4-tuple is the identity with no
derived field (the 3-of-4 precondition fails). -/
lemma calculateMissingField_full (nv : MacroValues) (h1 : nv.calories ≠ "")
    (h2 : nv.protein ≠ "") (h3 : nv.carbs ≠ "") (h4 : nv.fat ≠ "") :
    calculateMissingField nv = (nv, none) := by
  unfold calculateMissingField countSetFields
  simp [h1, h2, h3, h4]

/-- **C9** counterexample: from the fully solved state
(calories 1250 derived, protein 100, carbs 100, fat 50), editing protein to
120 does not recompute calories from the new 3-of-4 set (which would give
120*4 + 100*4 + 50*9 = 1330) and does not keep the derived tag: calories
stays at the stale 1250 and the tag is cleared. -/
theorem calculator_reSolve_counterexample :
    ¬(((setProtein ⟨⟨"1250", "100", "100", "50"⟩, some .calories⟩
          "120").values.calories = "1330")
      ∧ (setProtein ⟨⟨"1250", "100", "100", "50"⟩, some .calories⟩
          "120").calculatedField = some .calories) := by
  decide

/-- **C9** amended: from a fully-solved state in which calories is the
derived field, editing any non-derived field (protein, carbs or fat) to a
non-empty value performs no recomputation: every other field value is left
unchanged (calories keeps its previously derived value) and the derived tag
is cleared (`calculatedField` becomes null). -/
theorem calculator_edit_clears_derived (s : CalcState) (v : String)
    (hc : s.values.calories ≠ "") (hp : s.values.protein ≠ "")
    (hcb : s.values.carbs ≠ "") (hf : s.values.fat ≠ "")
    (htag : s.calculatedField = some .calories) (hv : v ≠ "") :
    setProtein s v = ⟨{ s.values with protein := v }, none⟩
    ∧ setCarbs s v = ⟨{ s.values with carbs := v }, none⟩
    ∧ setFat s v = ⟨{ s.values with fat := v }, none⟩ := by
  refine ⟨?_, ?_, ?_⟩
  · unfold setProtein
    rw [htag]
    rw [if_neg (by decide)]
    rw [calculateMissingField_full { s.values with protein := v } hc hv hcb hf]
  · unfold setCarbs
    rw [htag]
    rw [if_neg (by decide)]
    rw [calculateMissingField_full { s.values with carbs := v } hc hp hv hf]
  · unfold setFat
    rw [htag]
    rw [if_neg (by decide)]
    rw [calculateMissingField_full { s.values with fat := v } hc hp hcb hv]

/-- Witness for the amended calculator theorem at the concrete fully-solved
state: editing protein to 120 keeps calories at 1250 and drops the tag. -/
theorem calculator_edit_clears_derived_witness :
    setProtein ⟨⟨"1250", "100", "100", "50"⟩, some .calories⟩ "120"
      = ⟨⟨"1250", "120", "100", "50"⟩, none⟩ :=
  (calculator_edit_clears_derived
    ⟨⟨"1250", "100", "100", "50"⟩, some .calories⟩ "120"
    (by decide) (by decide) (by decide) (by decide) rfl (by decide)).1

/-- The field reported missing by `getMissingField` is empty. -/
lemma getMissingField_empty {nv : MacroValues} {f : MacroField}
    (h : getMissingField nv = some f) :
    (match f with
     | .calories => nv.calories
     | .protein => nv.protein
     | .carbs => nv.carbs
     | .fat => nv.fat) = "" := by
  unfold getMissingField at h
  split_ifs at h with h1 h2 h3 h4 <;>
    (injection h with h'
     subst h'
     simp_all)

/-- `calculateMissingField` changes at most the missing field, which was
empty: every field of the result is either the input field or was empty. -/
lemma calculateMissingField_fields (nv : MacroValues) :
    ((calculateMissingField nv).1.calories = nv.calories ∨ nv.calories = "")
    ∧ ((calculateMissingField nv).1.protein = nv.protein ∨ nv.protein = "")
    ∧ ((calculateMissingField nv).1.carbs = nv.carbs ∨ nv.carbs = "")
    ∧ ((calculateMissingField nv).1.fat = nv.fat ∨ nv.fat = "") := by
  unfold calculateMissingField
  by_cases hcnt : (countSetFields nv != 3) = true
  · rw [if_pos hcnt]
    simp
  · rw [if_neg hcnt]
    rcases hm : getMissingField nv with _ | f
    · simp
    · have hempty := getMissingField_empty hm
      cases f
      · exact ⟨Or.inr hempty, Or.inl rfl, Or.inl rfl, Or.inl rfl⟩
      · exact ⟨Or.inl rfl, Or.inr hempty, Or.inl rfl, Or.inl rfl⟩
      · exact ⟨Or.inl rfl, Or.inl rfl, Or.inr hempty, Or.inl rfl⟩
      · exact ⟨Or.inl rfl, Or.inl rfl, Or.inl rfl, Or.inr hempty⟩

/-- **C10**: `setCalories` blanks the other three fields (protein, carbs and
fat become empty) and clears the derived tag; by contrast
`setProtein`/`setCarbs`/`setFat` leave every other field in place — an
already-set other field is never cleared or overwritten (only a previously
empty field can change, via the 3-of-4 auto-fill). -/
theorem setCalories_clears_others (s : CalcState) (v : String) :
    setCalories s v = ⟨⟨v, "", "", ""⟩, none⟩
    ∧ ((setProtein s v).values.calories = s.values.calories
        ∨ s.values.calories = "")
    ∧ ((setProtein s v).values.carbs = s.values.carbs ∨ s.values.carbs = "")
    ∧ ((setProtein s v).values.fat = s.values.fat ∨ s.values.fat = "")
    ∧ ((setCarbs s v).values.calories = s.values.calories
        ∨ s.values.calories = "")
    ∧ ((setCarbs s v).values.protein = s.values.protein
        ∨ s.values.protein = "")
    ∧ ((setCarbs s v).values.fat = s.values.fat ∨ s.values.fat = "")
    ∧ ((setFat s v).values.calories = s.values.calories
        ∨ s.values.calories = "")
    ∧ ((setFat s v).values.protein = s.values.protein
        ∨ s.values.protein = "")
    ∧ ((setFat s v).values.carbs = s.values.carbs ∨ s.values.carbs = "") := by
  refine ⟨rfl, ?_, ?_, ?_, ?_, ?_, ?_, ?_, ?_, ?_⟩
  · unfold setProtein
    split
    · exact Or.inl rfl
    · exact (calculateMissingField_fields { s.values with protein := v }).1
  · unfold setProtein
    split
    · exact Or.inl rfl
    · exact (calculateMissingField_fields { s.values with protein := v }).2.2.1
  · unfold setProtein
    split
    · exact Or.inl rfl
    · exact (calculateMissingField_fields { s.values with protein := v }).2.2.2
  · unfold setCarbs
    split
    · exact Or.inl rfl
    · exact (calculateMissingField_fields { s.values with carbs := v }).1
  · unfold setCarbs
    split
    · exact Or.inl rfl
    · exact (calculateMissingField_fields { s.values with carbs := v }).2.1
  · unfold setCarbs
    split
    · exact Or.inl rfl
    · exact (calculateMissingField_fields { s.values with carbs := v }).2.2.2
  · unfold setFat
    split
    · exact Or.inl rfl
    · exact (calculateMissingField_fields { s.values with fat := v }).1
  · unfold setFat
    split
    · exact Or.inl rfl
    · exact (calculateMissingField_fields { s.values with fat := v }).2.1
  · unfold setFat
    split
    · exact Or.inl rfl
    · exact (calculateMissingField_fields { s.values with fat := v }).2.2.1

end HeyMacroApp
